import Mathlib

/-!
Verification development for the red-team/refinement feedback loop of the
Deep_Research repository (`src/red_team_evaluator.py`, `src/research_agent_full.py`,
`src/state_scope.py`).

Python floats are modelled as rationals (`ℚ`); Python ints as `ℤ`/`ℕ`;
JSON values that may be heterogeneous as the inductive `PyVal`.
LLM calls are opaque: each analysis function is embedded as a function of the
*parse outcome* of the model response (`none` = no JSON object could be
extracted or parsing raised; `some j` = a parsed JSON object, with `Option`
fields for keys that may be absent).  Decimal rounding in string formatting is
modelled as round-half-up (Python uses round-half-even; no claim depends on
the rounding mode).
-/

/-- Model of a Python/JSON value, as produced by `json.loads`: strings,
integers, booleans, null, lists and objects.  Parsed objects have no duplicate
keys, so `List.lookup` on the field list is faithful to `dict.get`. -/
inductive PyVal where
  | pstr (s : String)
  | pint (n : Int)
  | pbool (b : Bool)
  | pnull
  | plist (xs : List PyVal)
  | pdict (fields : List (String × PyVal))
deriving Repr

mutual

/-- Python `repr` of a value (as used by `str()` on non-string values):
`repr` of strings wraps them in single quotes (escaping of special characters
inside the string is not modelled), ints print decimally, booleans as
`True`/`False`, `None`, and containers recursively. -/
def pyRepr : PyVal → String
  | .pstr s => "\x27" ++ s ++ "\x27"
  | .pint n => toString n
  | .pbool true => "True"
  | .pbool false => "False"
  | .pnull => "None"
  | .plist xs => "[" ++ String.intercalate ", " (pyReprList xs) ++ "]"
  | .pdict fs => "\x7b" ++ String.intercalate ", " (pyReprFields fs) ++ "\x7d"

/-- `repr` of each element of a Python list. -/
def pyReprList : List PyVal → List String
  | [] => []
  | x :: xs => pyRepr x :: pyReprList xs

/-- `repr` of each `key: value` entry of a Python dict. -/
def pyReprFields : List (String × PyVal) → List String
  | [] => []
  | (k, v) :: fs => ("\x27" ++ k ++ "\x27: " ++ pyRepr v) :: pyReprFields fs

end

/-- Python `str()`: the identity on strings, `repr` on everything else. -/
def pyStr : PyVal → String
  | .pstr s => s
  | v => pyRepr v

/-- `BiasMetrics` dataclass of `red_team_evaluator.py` (lines 65–72), with the
dataclass field defaults (`0.0` scores, empty lists).  The list fields are
declared `List[str]` in the source and modelled as such. -/
structure BiasMetrics where
  one_sided_score : ℚ := 0
  missing_counter_evidence : List String := []
  confirmation_bias_indicators : List String := []
  source_diversity_score : ℚ := 0
  quantitative_ratio : ℚ := 0
deriving Repr, DecidableEq

/-- `SourceQualityMetrics` dataclass (lines 75–83), with its field defaults. -/
structure SourceQualityMetrics where
  total_sources : ℤ := 0
  primary_sources : ℤ := 0
  secondary_sources : ℤ := 0
  academic_sources : ℤ := 0
  source_credibility_score : ℚ := 0
  missing_citations : List String := []
deriving Repr, DecidableEq

/-- The `Dict[str, List[str]]` returned by `RedTeamEvaluator._verify_claims`:
always exactly the two keys `unsupported` and `missing_counter_evidence`. -/
structure ClaimVerification where
  unsupported : List String := []
  missing_counter_evidence : List String := []
deriving Repr, DecidableEq

/-- `ObjectivityScore` dataclass (lines 86–94). -/
structure ObjectivityScore where
  overall_score : ℚ := 0
  bias_metrics : BiasMetrics := {}
  source_quality : SourceQualityMetrics := {}
  unsupported_claims : List String := []
  counter_evidence_gaps : List String := []
  recommendations : List String := []
deriving Repr, DecidableEq

/-- Parse outcome of the bias-analysis model response (`_analyze_bias`,
lines 188–199): a parsed JSON object restricted to the fields the code reads,
each `Option` because `analysis.get` supplies a default when absent. -/
structure BiasJson where
  one_sided_score : Option ℚ := none
  missing_counter_evidence : Option (List String) := none
  confirmation_bias_indicators : Option (List String) := none
  source_diversity_score : Option ℚ := none
  quantitative_ratio : Option ℚ := none
deriving Repr, DecidableEq

/-- Parse outcome of the source-analysis model response (`_analyze_sources`,
lines 244–260).  The `int()` / `float()` coercions applied by the code are
modelled by typing the parsed fields as integers / rationals. -/
structure SourceJson where
  total_sources : Option ℤ := none
  primary_sources : Option ℤ := none
  secondary_sources : Option ℤ := none
  academic_sources : Option ℤ := none
  source_credibility_score : Option ℚ := none
  missing_citations : Option (List PyVal) := none
deriving Repr

/-- Parse outcome of the claim-verification model response (`_verify_claims`,
lines 300–329): the two list fields, `none` when the key is absent, and each
element an arbitrary JSON value (the code coerces them to strings). -/
structure ClaimsJson where
  unsupported : Option (List PyVal) := none
  missing_counter_evidence : Option (List PyVal) := none
deriving Repr

/-- `_analyze_bias` after the model call (lines 188–204): if a JSON object was
extracted and parsed, build `BiasMetrics` with per-field defaults `0.5` /
`[]`; otherwise (no `{...}` match, or `json.loads` raised) fall through to
`return BiasMetrics()` — the dataclass defaults.  Total: never raises. -/
def biasFromResponse : Option BiasJson → BiasMetrics
  | some a =>
    { one_sided_score := a.one_sided_score.getD 0.5
      missing_counter_evidence := a.missing_counter_evidence.getD []
      confirmation_bias_indicators := a.confirmation_bias_indicators.getD []
      source_diversity_score := a.source_diversity_score.getD 0.5
      quantitative_ratio := a.quantitative_ratio.getD 0.5 }
  | none => {}

/-- `_analyze_sources` after the model call (lines 244–269): on a parse the
fields default per `analysis.get` (note `total_sources` defaults to
`len(sources)`), and each `missing_citations` item is coerced by
`str(item) if not isinstance(item, str) else item`; on parse failure the
fallback is `SourceQualityMetrics(total_sources=len(sources),
source_credibility_score=0.5)`. -/
def sourcesFromResponse (sources : List String) : Option SourceJson → SourceQualityMetrics
  | some a =>
    { total_sources := a.total_sources.getD (sources.length : ℤ)
      primary_sources := a.primary_sources.getD 0
      secondary_sources := a.secondary_sources.getD 0
      academic_sources := a.academic_sources.getD 0
      source_credibility_score := a.source_credibility_score.getD 0.5
      missing_citations :=
        (a.missing_citations.getD []).map fun i =>
          match i with
          | .pstr s => s
          | v => pyStr v }
  | none => { total_sources := (sources.length : ℤ), source_credibility_score := 0.5 }

/-- Element coercion for the `unsupported` list (`_verify_claims`,
lines 310–317): a string is kept; a dict yields
`str(item.get("claim", item.get("text", str(item))))`; anything else is
`str(item)`. -/
def coerceClaimItem (item : PyVal) : String :=
  match item with
  | .pstr s => s
  | .pdict fs =>
    pyStr ((List.lookup "claim" fs).getD
      ((List.lookup "text" fs).getD (.pstr (pyStr (.pdict fs)))))
  | v => pyStr v

/-- Element coercion for the `missing_counter_evidence` list (`_verify_claims`,
lines 319–327): same as `coerceClaimItem` with the `gap` key in place of
`claim`. -/
def coerceGapItem (item : PyVal) : String :=
  match item with
  | .pstr s => s
  | .pdict fs =>
    pyStr ((List.lookup "gap" fs).getD
      ((List.lookup "text" fs).getD (.pstr (pyStr (.pdict fs)))))
  | v => pyStr v

/-- `_verify_claims` after the model call (lines 300–334): on a parse, coerce
every element of each (possibly absent) list; on parse failure return the
empty result.  Total: never raises. -/
def verifyClaimsFromResponse : Option ClaimsJson → ClaimVerification
  | some p =>
    { unsupported := (p.unsupported.getD []).map coerceClaimItem
      missing_counter_evidence := (p.missing_counter_evidence.getD []).map coerceGapItem }
  | none => {}

/-- `RedTeamEvaluator._calculate_objectivity_score` (lines 336–355). -/
def calculate_objectivity_score (bias : BiasMetrics) (sources : SourceQualityMetrics)
    (claims : ClaimVerification) : ℚ :=
  let bias_component := (1 - bias.one_sided_score) * 0.4
  let source_component := sources.source_credibility_score * 0.3
  let diversity_component := bias.source_diversity_score * 0.2
  let quantitative_component := bias.quantitative_ratio * 0.1
  let unsupported_penalty := min ((claims.unsupported.length : ℚ) * 0.05) 0.2
  let score := (bias_component + source_component + diversity_component +
      quantitative_component) * (1 - unsupported_penalty)
  max 0 (min 1 score)

/-- Left-pad a digit string with zeros to `d` characters (used for the
fractional part of fixed-point formatting). -/
def padZeros (d : Nat) (s : String) : String :=
  String.mk (List.replicate (d - s.length) '0') ++ s

/-- Fixed-point decimal rendering with `d` fractional digits, rounding half
up (Python's `format` rounds half to even; the difference is immaterial to
every property proved here). -/
def formatFixed (d : Nat) (q : ℚ) : String :=
  let m : ℤ := (q * (10 : ℚ) ^ d + 1 / 2).floor
  let a : ℕ := m.natAbs
  (if m < 0 then "-" else "") ++ toString (a / 10 ^ d) ++
    (if d = 0 then "" else "." ++ padZeros d (toString (a % 10 ^ d)))

/-- Python `f"{q:.1%}"`: percentage with one fractional digit. -/
def formatPercent1 (q : ℚ) : String := formatFixed 1 (q * 100) ++ "%"

/-- Python `f"{q:.2%}"`: percentage with two fractional digits. -/
def formatPercent2 (q : ℚ) : String := formatFixed 2 (q * 100) ++ "%"

/-- Python `f"{q:.2f}"`. -/
def formatFixed2 (q : ℚ) : String := formatFixed 2 q

/-- `RedTeamEvaluator._generate_recommendations` (lines 357–407). -/
def generate_recommendations (bias : BiasMetrics) (sources : SourceQualityMetrics)
    (claims : ClaimVerification) : List String :=
  let r1 : List String :=
    if bias.one_sided_score > 0.6 then
      ["⚠️ High one-sided score (" ++ formatFixed2 bias.one_sided_score ++
        "): Consider adding alternative perspectives or counter-arguments."]
    else []
  let r2 : List String :=
    if bias.source_diversity_score < 0.5 then
      ["⚠️ Low source diversity: Include sources from diverse perspectives and viewpoints."]
    else []
  let r3 : List String :=
    if bias.quantitative_ratio < 0.3 then
      ["⚠️ Low quantitative data: Increase use of specific numbers, statistics, and measurable metrics."]
    else []
  let r4 : List String :=
    if sources.source_credibility_score < 0.6 then
      ["⚠️ Source quality concerns: Prioritize primary sources, official documents, and authoritative publications."]
    else []
  let unsupported_count := claims.unsupported.length
  let r5 : List String :=
    if unsupported_count > 0 then
      ["⚠️ " ++ toString unsupported_count ++
        " unsupported claim(s) identified: Add citations or evidence for these assertions."]
    else []
  let missing_counter := claims.missing_counter_evidence.length
  let r6 : List String :=
    if missing_counter > 0 then
      ["⚠️ " ++ toString missing_counter ++
        " area(s) need counter-evidence: Present alternative viewpoints or contradictory evidence."]
    else []
  let recs := r1 ++ r2 ++ r3 ++ r4 ++ r5 ++ r6
  if recs = [] then ["✅ Report shows good objectivity and balanced perspective."] else recs

/-- The resolved inputs of one red-team evaluation cycle: the source list
extracted from the report and the parse outcome of each of the three model
responses.  The network calls and the regex source extraction are summarized
by these values. -/
structure EvalInputs where
  sources : List String := []
  biasResp : Option BiasJson := none
  sourceResp : Option SourceJson := none
  claimsResp : Option ClaimsJson := none

/-- `RedTeamEvaluator.evaluate_report` (lines 114–153): run the three
analyses, compute the overall score, the recommendations, and assemble the
`ObjectivityScore`. -/
def evaluate_report (inp : EvalInputs) : ObjectivityScore :=
  let bias_analysis := biasFromResponse inp.biasResp
  let source_analysis := sourcesFromResponse inp.sources inp.sourceResp
  let claim_verification := verifyClaimsFromResponse inp.claimsResp
  { overall_score := calculate_objectivity_score bias_analysis source_analysis claim_verification
    bias_metrics := bias_analysis
    source_quality := source_analysis
    unsupported_claims := claim_verification.unsupported
    counter_evidence_gaps := claim_verification.missing_counter_evidence
    recommendations := generate_recommendations bias_analysis source_analysis claim_verification }

/-- The nested `bias_metrics` entry of `get_evaluation_summary`. -/
structure BiasSummary where
  one_sided_score : ℚ
  source_diversity_score : ℚ
  quantitative_ratio : ℚ
  missing_counter_evidence_count : ℕ
  confirmation_bias_indicators_count : ℕ
deriving Repr, DecidableEq

/-- The nested `source_quality` entry of `get_evaluation_summary`. -/
structure SourceSummary where
  total_sources : ℤ
  primary_sources : ℤ
  secondary_sources : ℤ
  academic_sources : ℤ
  credibility_score : ℚ
  missing_citations_count : ℕ
deriving Repr, DecidableEq

/-- The nested `issues` entry of `get_evaluation_summary`. -/
structure IssuesSummary where
  unsupported_claims_count : ℕ
  counter_evidence_gaps_count : ℕ
deriving Repr, DecidableEq

/-- The summary dict produced by `RedTeamEvaluator.get_evaluation_summary`
(lines 479–503); stored in the state as `red_team_evaluation`. -/
structure EvaluationSummary where
  overall_score : ℚ
  bias_metrics : BiasSummary
  source_quality : SourceSummary
  issues : IssuesSummary
  recommendations_count : ℕ
deriving Repr, DecidableEq

/-- `RedTeamEvaluator.get_evaluation_summary` (lines 479–503). -/
def get_evaluation_summary (score : ObjectivityScore) : EvaluationSummary :=
  { overall_score := score.overall_score
    bias_metrics :=
      { one_sided_score := score.bias_metrics.one_sided_score
        source_diversity_score := score.bias_metrics.source_diversity_score
        quantitative_ratio := score.bias_metrics.quantitative_ratio
        missing_counter_evidence_count := score.bias_metrics.missing_counter_evidence.length
        confirmation_bias_indicators_count := score.bias_metrics.confirmation_bias_indicators.length }
    source_quality :=
      { total_sources := score.source_quality.total_sources
        primary_sources := score.source_quality.primary_sources
        secondary_sources := score.source_quality.secondary_sources
        academic_sources := score.source_quality.academic_sources
        credibility_score := score.source_quality.source_credibility_score
        missing_citations_count := score.source_quality.missing_citations.length }
    issues :=
      { unsupported_claims_count := score.unsupported_claims.length
        counter_evidence_gaps_count := score.counter_evidence_gaps.length }
    recommendations_count := score.recommendations.length }

/-- `RedTeamEvaluator.format_evaluation_report` (lines 409–477); `now` stands
for `datetime.now().isoformat()`. -/
def format_evaluation_report (now : String) (score : ObjectivityScore) : String :=
  let report_lines : List String :=
    ["# Red Team Evaluation Report",
     "**Generated:** " ++ now,
     "",
     "## Overall Objectivity Score",
     "**Score: " ++ formatPercent2 score.overall_score ++ "** (" ++
       (if score.overall_score > 0.8 then "Excellent"
        else if score.overall_score > 0.6 then "Good" else "Needs Improvement") ++ ")",
     "",
     "## Bias Analysis",
     "- **One-Sided Score:** " ++ formatPercent2 score.bias_metrics.one_sided_score ++ " (" ++
       (if score.bias_metrics.one_sided_score > 0.6 then "High"
        else if score.bias_metrics.one_sided_score > 0.4 then "Moderate" else "Low") ++ ")",
     "- **Source Diversity:** " ++ formatPercent2 score.bias_metrics.source_diversity_score,
     "- **Quantitative Ratio:** " ++ formatPercent2 score.bias_metrics.quantitative_ratio,
     ""] ++
    (if score.bias_metrics.missing_counter_evidence ≠ [] then
      ["### Missing Counter-Evidence"] ++
        score.bias_metrics.missing_counter_evidence.map (fun item => "- " ++ item) ++ [""]
     else []) ++
    (if score.bias_metrics.confirmation_bias_indicators ≠ [] then
      ["### Confirmation Bias Indicators"] ++
        score.bias_metrics.confirmation_bias_indicators.map (fun item => "- " ++ item) ++ [""]
     else []) ++
    ["## Source Quality Analysis",
     "- **Total Sources:** " ++ toString score.source_quality.total_sources,
     "- **Primary Sources:** " ++ toString score.source_quality.primary_sources,
     "- **Secondary Sources:** " ++ toString score.source_quality.secondary_sources,
     "- **Academic Sources:** " ++ toString score.source_quality.academic_sources,
     "- **Credibility Score:** " ++ formatPercent2 score.source_quality.source_credibility_score,
     ""] ++
    (if score.source_quality.missing_citations ≠ [] then
      ["### Missing Citations"] ++
        score.source_quality.missing_citations.map (fun item => "- " ++ item) ++ [""]
     else []) ++
    (if score.unsupported_claims ≠ [] then
      ["## Unsupported Claims"] ++
        score.unsupported_claims.map (fun item => "- " ++ item) ++ [""]
     else []) ++
    (if score.counter_evidence_gaps ≠ [] then
      ["## Counter-Evidence Gaps"] ++
        score.counter_evidence_gaps.map (fun item => "- " ++ item) ++ [""]
     else []) ++
    ["## Recommendations"] ++ score.recommendations ++ [""]
  String.intercalate "\n" report_lines

/-- One entry of the `priority_issues` list built by
`generate_refinement_feedback`: the dict keys that occur, `Option` for the
keys only some issues carry. -/
structure PriorityIssue where
  severity : String
  issue : String
  current_score : Option ℚ := none
  target_score : Option ℚ := none
  claims : Option (List String) := none
  gaps : Option (List String) := none
  citations_needed : Option (List String) := none
deriving Repr, DecidableEq

/-- The feedback dict built by `RedTeamEvaluator.generate_refinement_feedback`
(lines 505–606). -/
structure RefinementFeedback where
  priority_issues : List PriorityIssue := []
  specific_suggestions : List String := []
  missing_elements : List String := []
  refinement_prompt : String := ""
deriving Repr, DecidableEq

/-- Rendering of one priority issue inside `_build_refinement_prompt`
(lines 624–635): the severity tag upper-cased, then up to 3 supporting claims
and up to 2 gaps when those keys are present and non-empty. -/
def renderIssue (i : PriorityIssue) : String :=
  "- [" ++ i.severity.toUpper ++ "] " ++ i.issue ++ "\n" ++
  (match i.claims with
   | some cs =>
     if cs ≠ [] then
       "  Specific claims needing support: " ++ String.intercalate ", " (cs.take 3) ++ "\n"
     else ""
   | none => "") ++
  (match i.gaps with
   | some gs =>
     if gs ≠ [] then
       "  Missing perspectives: " ++ String.intercalate ", " (gs.take 2) ++ "\n"
     else ""
   | none => "")

/-- Everything `RedTeamEvaluator._build_refinement_prompt` appends after the
`Current Report Objectivity Score: ... (Target: ≥75%)` header (lines
622–670).  The iteration order of Python's `set(feedback["missing_elements"])`
is unspecified; it is modelled as `List.dedup`. -/
def refinement_prompt_tail (score : ObjectivityScore) (priority_issues : List PriorityIssue)
    (specific_suggestions missing_elements : List String)
    (report : String) : String :=
  "\n\nCRITICAL ISSUES TO ADDRESS:\n" ++
  String.join (priority_issues.map renderIssue) ++
  "\nSPECIFIC IMPROVEMENTS NEEDED:\n" ++
  String.join (specific_suggestions.map (fun s => "- " ++ s ++ "\n")) ++
  (if missing_elements ≠ [] then
    "\nMISSING ELEMENTS TO ADD:\n" ++
      String.join (missing_elements.dedup.map (fun e => "- " ++ e ++ "\n"))
   else "") ++
  "\nRED TEAM RECOMMENDATIONS:\n" ++
  String.join (score.recommendations.map (fun r => "- " ++ r ++ "\n")) ++
  "\nCURRENT REPORT:\n" ++
  report ++
  "\n\nTASK:\nRefine the above report by addressing all the issues identified by the red team evaluation.\nMaintain all accurate information while:\n1. Adding missing citations for unsupported claims\n2. Including counter-evidence and alternative perspectives where identified\n3. Increasing quantitative data and specific metrics\n4. Improving source diversity and credibility\n5. Ensuring balanced, objective presentation\n\nIMPORTANT:\n- Preserve all valid content and accurate information\n- Do not remove existing good content\n- Focus on adding missing elements and improving objectivity\n- Maintain the report structure and organization\n\nReturn the refined report that addresses these concerns while preserving all valid content.\n"

/-- `RedTeamEvaluator._build_refinement_prompt` (lines 608–671): the header
line reporting the current score against the hardcoded `≥75%` target,
followed by `refinement_prompt_tail`. -/
def build_refinement_prompt (score : ObjectivityScore) (priority_issues : List PriorityIssue)
    (specific_suggestions missing_elements : List String)
    (report research_query : String) : String :=
  "You are refining a research report based on red team evaluation feedback.\n\nOriginal Research Query: " ++
  research_query ++
  "\n\nCurrent Report Objectivity Score: " ++
  formatPercent1 score.overall_score ++
  " (Target: ≥75%)" ++
  refinement_prompt_tail score priority_issues specific_suggestions missing_elements report

/-- `RedTeamEvaluator.generate_refinement_feedback` (lines 505–606): the
deterministic rule table building priority issues, suggestions, missing
elements, and the refinement prompt. -/
def generate_refinement_feedback (score : ObjectivityScore)
    (report research_query : String) : RefinementFeedback :=
  let issues_score : List PriorityIssue :=
    if score.overall_score < 0.6 then
      [{ severity := "critical"
         issue := "Overall objectivity score is below acceptable threshold"
         current_score := some score.overall_score
         target_score := some 0.75 }]
    else if score.overall_score < 0.75 then
      [{ severity := "high"
         issue := "Overall objectivity score needs improvement"
         current_score := some score.overall_score
         target_score := some 0.75 }]
    else []
  let issues_unsupported : List PriorityIssue :=
    if score.unsupported_claims.length > 0 then
      [{ severity := "high"
         issue := toString score.unsupported_claims.length ++ " unsupported claims found"
         claims := some (score.unsupported_claims.take 5) }]
    else []
  let issues_gaps : List PriorityIssue :=
    if score.counter_evidence_gaps.length > 0 then
      [{ severity := "medium"
         issue := "Missing counter-evidence or alternative perspectives"
         gaps := some (score.counter_evidence_gaps.take 3) }]
    else []
  let issues_citations : List PriorityIssue :=
    if score.source_quality.missing_citations.length > 0 then
      [{ severity := "medium"
         issue := toString score.source_quality.missing_citations.length ++
           " claims missing citations"
         citations_needed := some (score.source_quality.missing_citations.take 5) }]
    else []
  let priority_issues := issues_score ++ issues_unsupported ++ issues_gaps ++ issues_citations
  let sugg_viewpoints : List String :=
    if score.bias_metrics.one_sided_score > 0.6 then
      ["Add alternative viewpoints and counter-arguments to balance the report"]
    else []
  let miss_viewpoints : List String :=
    if score.bias_metrics.one_sided_score > 0.6 ∧
        score.bias_metrics.missing_counter_evidence ≠ [] then
      score.bias_metrics.missing_counter_evidence.take 3
    else []
  let sugg_quant : List String :=
    if score.bias_metrics.quantitative_ratio < 0.3 then
      ["Include more quantitative data: specific numbers, statistics, dates, and metrics"]
    else []
  let miss_quant : List String :=
    if score.bias_metrics.quantitative_ratio < 0.3 then
      ["Quantitative metrics and statistics"]
    else []
  let sugg_primary : List String :=
    if score.source_quality.source_credibility_score < 0.6 then
      ["Prioritize primary sources and authoritative publications over secondary sources"]
    else []
  let miss_primary : List String :=
    if score.source_quality.source_credibility_score < 0.6 then
      ["High-credibility primary sources"]
    else []
  let sugg_diverse : List String :=
    if score.bias_metrics.source_diversity_score < 0.5 then
      ["Include sources from diverse perspectives and viewpoints"]
    else []
  let miss_diverse : List String :=
    if score.bias_metrics.source_diversity_score < 0.5 then
      ["Diverse source perspectives"]
    else []
  let specific_suggestions := sugg_viewpoints ++ sugg_quant ++ sugg_primary ++ sugg_diverse
  let missing_elements := miss_viewpoints ++ miss_quant ++ miss_primary ++ miss_diverse
  { priority_issues := priority_issues
    specific_suggestions := specific_suggestions
    missing_elements := missing_elements
    refinement_prompt :=
      build_refinement_prompt score priority_issues specific_suggestions missing_elements
        report research_query }

/-- One entry of `red_team_feedback_history`
(`red_team_evaluation_node`, lines 144–150). -/
structure HistoryEntry where
  iteration : ℕ
  score : ℚ
  timestamp : String
  priority_issues_count : ℕ
  suggestions_count : ℕ
deriving Repr, DecidableEq

/-- The `AgentState` TypedDict of `state_scope.py` (lines 22–53), restricted
to the fields the red-team loop reads or writes.  Fields that the schema
declares with defaults (`red_team_iteration_count`, `refinement_iterations`,
`max_refinement_iterations`, `min_objectivity_score`, the lists) carry those
defaults; string keys that nodes read through `state.get(key, "")` are
modelled total with default `""`; keys whose *presence* is tested
(`red_team_evaluation`, `red_team_feedback`, `research_brief`,
`user_request`) are `Option`-valued with `none` for an absent key. -/
structure AgentState where
  messages : List String := []
  research_brief : Option String := none
  user_request : Option String := none
  supervisor_messages : List String := []
  raw_notes : List String := []
  notes : List String := []
  draft_report : String := ""
  final_report : String := ""
  red_team_evaluation : Option EvaluationSummary := none
  red_team_report : Option String := none
  red_team_iteration_count : ℕ := 0
  red_team_feedback : Option RefinementFeedback := none
  red_team_feedback_history : List HistoryEntry := []
  refinement_iterations : ℕ := 0
  max_refinement_iterations : ℕ := 3
  min_objectivity_score : ℚ := 0.75

/-- A partial-state update returned by a node: `none` / `[]` for keys the
node does not return.  Per the `Annotated` reducers of `state_scope.py`,
`red_team_feedback_history`, `notes`, `raw_notes` and the message lists merge
by list append (`operator.add` / `add_messages`); every other key merges by
overwrite. -/
structure StateUpdate where
  messages : List String := []
  research_brief : Option String := none
  supervisor_messages : List String := []
  raw_notes : List String := []
  notes : List String := []
  draft_report : Option String := none
  final_report : Option String := none
  red_team_evaluation : Option EvaluationSummary := none
  red_team_report : Option String := none
  red_team_iteration_count : Option ℕ := none
  red_team_feedback : Option RefinementFeedback := none
  red_team_feedback_history : List HistoryEntry := []
  refinement_iterations : Option ℕ := none

/-- The empty update `{}` returned by a skipped node. -/
def StateUpdate.empty : StateUpdate := {}

/-- The graph engine's merge of a partial update into the state: per-key
overwrite for scalars, append for the `operator.add` / `add_messages`
annotated lists. -/
def applyUpdate (s : AgentState) (u : StateUpdate) : AgentState :=
  { s with
    messages := s.messages ++ u.messages
    research_brief := match u.research_brief with | some b => some b | none => s.research_brief
    supervisor_messages := s.supervisor_messages ++ u.supervisor_messages
    raw_notes := s.raw_notes ++ u.raw_notes
    notes := s.notes ++ u.notes
    draft_report := (u.draft_report).getD s.draft_report
    final_report := (u.final_report).getD s.final_report
    red_team_evaluation :=
      match u.red_team_evaluation with | some e => some e | none => s.red_team_evaluation
    red_team_report :=
      match u.red_team_report with | some r => some r | none => s.red_team_report
    red_team_iteration_count := (u.red_team_iteration_count).getD s.red_team_iteration_count
    red_team_feedback :=
      match u.red_team_feedback with | some f => some f | none => s.red_team_feedback
    red_team_feedback_history := s.red_team_feedback_history ++ u.red_team_feedback_history
    refinement_iterations := (u.refinement_iterations).getD s.refinement_iterations }

/-- `red_team_evaluation_node` of `research_agent_full.py` (lines 80–167):
disabled flag or missing report → `{}`; any exception inside the `try` block
(generation failure or otherwise, summarized as `.error`) → `{}`; otherwise
evaluate, synthesize feedback, and return the full update with the counter
incremented and exactly one new history entry.  `enabled` stands for
`ENABLE_RED_TEAM_EVAL == "true"`; `today` for `get_today_str()`. -/
def red_team_evaluation_node (enabled : Bool) (today : String) (s : AgentState)
    (inp : Except String EvalInputs) : StateUpdate :=
  if enabled = false then {}
  else if s.final_report = "" then {}
  else
    match inp with
    | .error _ => {}
    | .ok ev =>
      let current_iteration := s.red_team_iteration_count + 1
      let research_query := (s.research_brief.getD (s.user_request.getD ""))
      let red_team_evaluation := evaluate_report ev
      let feedback :=
        generate_refinement_feedback red_team_evaluation s.final_report research_query
      let new_history_entry : HistoryEntry :=
        { iteration := current_iteration
          score := red_team_evaluation.overall_score
          timestamp := today
          priority_issues_count := feedback.priority_issues.length
          suggestions_count := feedback.specific_suggestions.length }
      { red_team_evaluation := some (get_evaluation_summary red_team_evaluation)
        red_team_report := some (format_evaluation_report today red_team_evaluation)
        red_team_feedback := some feedback
        red_team_iteration_count := some current_iteration
        red_team_feedback_history := [new_history_entry] }

/-- `refine_report_with_feedback` (lines 171–232): with no stored feedback or
an empty refinement prompt, skip generation and return the unchanged report
with the incremented counter; otherwise generate the refined report from the
prompt (`gen` stands for the writer model). -/
def refine_report_with_feedback (gen : String → String) (s : AgentState) : StateUpdate :=
  let current_iteration := s.refinement_iterations + 1
  let current_report := s.final_report
  let refinement_prompt :=
    match s.red_team_feedback with
    | none => ""
    | some f => f.refinement_prompt
  if refinement_prompt = "" then
    { final_report := some current_report
      refinement_iterations := some current_iteration }
  else
    { final_report := some (gen refinement_prompt)
      refinement_iterations := some current_iteration
      messages := ["Report refined based on red team feedback (iteration " ++
        toString current_iteration ++ ")"] }

/-- The two values of the conditional router `should_refine_report`. -/
inductive RouteDecision where
  | refine_report
  | finalize_report
deriving Repr, DecidableEq

/-- `should_refine_report` (lines 236–290).  `redTeamEnabled` stands for
`ENABLE_RED_TEAM_EVAL == "true"`, `feedbackLoopEnabled` for
`RED_TEAM_FEEDBACK_LOOP == "true"`. -/
def should_refine_report (redTeamEnabled feedbackLoopEnabled : Bool)
    (s : AgentState) : RouteDecision :=
  if redTeamEnabled = false then .finalize_report
  else if feedbackLoopEnabled = false then .finalize_report
  else
    match s.red_team_evaluation with
    | none => .finalize_report
    | some eval_summary =>
      if eval_summary.overall_score ≥ s.min_objectivity_score then .finalize_report
      else if s.refinement_iterations ≥ s.max_refinement_iterations then .finalize_report
      else .refine_report

/-- `final_report_generation` (lines 40–76): writes the generated report text
(taken as a parameter) and appends one message; touches no red-team field. -/
def final_report_generation_update (text : String) : StateUpdate :=
  { final_report := some text
    messages := ["Initial final report generated"] }

/-- `write_research_brief` of `research_agent_scope.py` (lines 71–98):
updates only `research_brief`. -/
def write_research_brief_update (brief : String) : StateUpdate :=
  { research_brief := some brief }

/-- `write_draft_report` of `research_agent_scope.py` (lines 119–144):
updates `research_brief`, `draft_report` and `supervisor_messages`. -/
def write_draft_report_update (brief draft : String) : StateUpdate :=
  { research_brief := some brief
    draft_report := some draft
    supervisor_messages := ["Here is the draft report: " ++ draft, brief] }

/-- Modelled from the spec: the `supervisor_subgraph` research-dispatch node
(module `multi_agent_supervisor`, not under `src/`).  Per the spec it is an
external collaborator of the loop that contributes research notes and
supervisor messages and does not touch the red-team loop fields. -/
def supervisor_update (msgs sup raw ns : List String) : StateUpdate :=
  { messages := msgs
    supervisor_messages := sup
    raw_notes := raw
    notes := ns }

/-- One engine step of the workflow graph of `research_agent_full.py`
(lines 292–326): running any node on the current state and merging its
partial update.  `clarify_with_user` returns no update (a pure `goto`). -/
inductive WorkflowStep : AgentState → AgentState → Prop where
  | clarify (s : AgentState) : WorkflowStep s s
  | brief (s : AgentState) (b : String) :
      WorkflowStep s (applyUpdate s (write_research_brief_update b))
  | draft (s : AgentState) (b d : String) :
      WorkflowStep s (applyUpdate s (write_draft_report_update b d))
  | supervisor (s : AgentState) (msgs sup raw ns : List String) :
      WorkflowStep s (applyUpdate s (supervisor_update msgs sup raw ns))
  | finalGen (s : AgentState) (text : String) :
      WorkflowStep s (applyUpdate s (final_report_generation_update text))
  | evalNode (s : AgentState) (enabled : Bool) (today : String)
      (inp : Except String EvalInputs) :
      WorkflowStep s (applyUpdate s (red_team_evaluation_node enabled today s inp))
  | refineNode (s : AgentState) (gen : String → String) :
      WorkflowStep s (applyUpdate s (refine_report_with_feedback gen s))

/-- States reachable by the workflow: the graph is invoked on an
`AgentInputState` carrying only the user messages, every other field at its
schema default, and then advances by `WorkflowStep`. -/
inductive ReachableState : AgentState → Prop where
  | init (msgs : List String) : ReachableState { messages := msgs }
  | step {s s' : AgentState} : ReachableState s → WorkflowStep s s' → ReachableState s'

/-- Merging the empty update leaves the state unchanged. -/
theorem applyUpdate_empty (s : AgentState) : applyUpdate s StateUpdate.empty = s := by
  cases s
  simp [applyUpdate, StateUpdate.empty]

/-- The unsupported-claims penalty factor `1 - min(0.05*n, 0.2)` is
non-negative (indeed at least `0.8`). -/
theorem penalty_factor_nonneg (n : ℕ) : (0 : ℚ) ≤ 1 - min ((n : ℚ) * 0.05) 0.2 := by
  have h := min_le_right ((n : ℚ) * 0.05) (0.2 : ℚ)
  linarith

/-- Clamping to `[0,1]` after multiplying by the penalty factor is monotone. -/
theorem clamp_mul_penalty_mono (n : ℕ) {a b : ℚ} (h : a ≤ b) :
    max 0 (min 1 (a * (1 - min ((n : ℚ) * 0.05) 0.2))) ≤
    max 0 (min 1 (b * (1 - min ((n : ℚ) * 0.05) 0.2))) := by
  have hf := penalty_factor_nonneg n
  have hm := mul_le_mul_of_nonneg_right h hf
  exact max_le_max le_rfl (min_le_min le_rfl hm)

/-- C1: the objectivity score equals the weighted sum
`0.4*(1-one_sided) + 0.3*credibility + 0.2*diversity + 0.1*quantitative`
multiplied by `1 - min(0.05*|unsupported|, 0.2)` and clamped to `[0,1]`;
for unsupported lists of length 0, 1, 4, 10 the penalty multiplier is
1.0, 0.95, 0.8, 0.8. -/
theorem objectivity_score_formula (bias : BiasMetrics) (sources : SourceQualityMetrics)
    (claims : ClaimVerification) :
    calculate_objectivity_score bias sources claims =
      max 0 (min 1 ((0.4 * (1 - bias.one_sided_score) +
        0.3 * sources.source_credibility_score +
        0.2 * bias.source_diversity_score +
        0.1 * bias.quantitative_ratio) *
        (1 - min (0.05 * (claims.unsupported.length : ℚ)) 0.2))) ∧
    (claims.unsupported.length = 0 →
      1 - min (0.05 * (claims.unsupported.length : ℚ)) 0.2 = 1) ∧
    (claims.unsupported.length = 1 →
      1 - min (0.05 * (claims.unsupported.length : ℚ)) 0.2 = 0.95) ∧
    (claims.unsupported.length = 4 →
      1 - min (0.05 * (claims.unsupported.length : ℚ)) 0.2 = 0.8) ∧
    (claims.unsupported.length = 10 →
      1 - min (0.05 * (claims.unsupported.length : ℚ)) 0.2 = 0.8) := by
  refine ⟨?_, ?_, ?_, ?_, ?_⟩
  · have h : ((1 - bias.one_sided_score) * 0.4 + sources.source_credibility_score * 0.3 +
        bias.source_diversity_score * 0.2 + bias.quantitative_ratio * 0.1) =
        (0.4 * (1 - bias.one_sided_score) + 0.3 * sources.source_credibility_score +
        0.2 * bias.source_diversity_score + 0.1 * bias.quantitative_ratio) := by ring
    have h2 : ((claims.unsupported.length : ℚ) * 0.05) =
        (0.05 * (claims.unsupported.length : ℚ)) := by ring
    simp only [calculate_objectivity_score, h, h2]
  · intro h; rw [h]; norm_num
  · intro h; rw [h]; norm_num [min_def]
  · intro h; rw [h]; norm_num [min_def]
  · intro h; rw [h]; norm_num [min_def]

/-- Witness for C1: the penalty multipliers at concrete unsupported lists of
length 0, 1, 4 and 10. -/
theorem objectivity_score_formula_witness :
    (1 - min (0.05 * (((ClaimVerification.mk [] []).unsupported.length : ℚ))) 0.2 = 1) ∧
    (1 - min (0.05 * (((ClaimVerification.mk ["a"] []).unsupported.length : ℚ))) 0.2 = 0.95) ∧
    (1 - min (0.05 * (((ClaimVerification.mk (List.replicate 4 "a") []).unsupported.length : ℚ)))
      0.2 = 0.8) ∧
    (1 - min (0.05 * (((ClaimVerification.mk (List.replicate 10 "a") []).unsupported.length : ℚ)))
      0.2 = 0.8) :=
  ⟨(objectivity_score_formula {} {} (ClaimVerification.mk [] [])).2.1 (by decide),
   (objectivity_score_formula {} {} (ClaimVerification.mk ["a"] [])).2.2.1 (by decide),
   (objectivity_score_formula {} {} (ClaimVerification.mk (List.replicate 4 "a") [])).2.2.2.1
     (by decide),
   (objectivity_score_formula {} {} (ClaimVerification.mk (List.replicate 10 "a") [])).2.2.2.2
     (by decide)⟩

/-- C4: the objectivity score is monotone non-decreasing in
`source_diversity_score` and `source_credibility_score`, and monotone
non-increasing in `one_sided_score`, all other inputs fixed. -/
theorem objectivity_score_monotone (bias : BiasMetrics) (sources : SourceQualityMetrics)
    (claims : ClaimVerification) :
    (∀ d₁ d₂ : ℚ, d₁ ≤ d₂ →
      calculate_objectivity_score { bias with source_diversity_score := d₁ } sources claims ≤
      calculate_objectivity_score { bias with source_diversity_score := d₂ } sources claims) ∧
    (∀ c₁ c₂ : ℚ, c₁ ≤ c₂ →
      calculate_objectivity_score bias { sources with source_credibility_score := c₁ } claims ≤
      calculate_objectivity_score bias { sources with source_credibility_score := c₂ } claims) ∧
    (∀ o₁ o₂ : ℚ, o₁ ≤ o₂ →
      calculate_objectivity_score { bias with one_sided_score := o₂ } sources claims ≤
      calculate_objectivity_score { bias with one_sided_score := o₁ } sources claims) := by
  refine ⟨?_, ?_, ?_⟩
  · intro d₁ d₂ h
    simp only [calculate_objectivity_score]
    exact clamp_mul_penalty_mono _ (by linarith)
  · intro c₁ c₂ h
    simp only [calculate_objectivity_score]
    exact clamp_mul_penalty_mono _ (by linarith)
  · intro o₁ o₂ h
    simp only [calculate_objectivity_score]
    exact clamp_mul_penalty_mono _ (by linarith)

/-- Witness for C4: the three monotonicity statements at concrete inputs. -/
theorem objectivity_score_monotone_witness :
    (calculate_objectivity_score
        { one_sided_score := 0.9, source_diversity_score := 0.1, quantitative_ratio := 0.2 }
        { source_credibility_score := 0.4 } { unsupported := ["a", "b"] } ≤
      calculate_objectivity_score
        { one_sided_score := 0.9, source_diversity_score := 0.7, quantitative_ratio := 0.2 }
        { source_credibility_score := 0.4 } { unsupported := ["a", "b"] }) ∧
    (calculate_objectivity_score
        { one_sided_score := 0.9, source_diversity_score := 0.1, quantitative_ratio := 0.2 }
        { source_credibility_score := 0.4 } { unsupported := ["a", "b"] } ≤
      calculate_objectivity_score
        { one_sided_score := 0.9, source_diversity_score := 0.1, quantitative_ratio := 0.2 }
        { source_credibility_score := 0.8 } { unsupported := ["a", "b"] }) ∧
    (calculate_objectivity_score
        { one_sided_score := 0.9, source_diversity_score := 0.1, quantitative_ratio := 0.2 }
        { source_credibility_score := 0.4 } { unsupported := ["a", "b"] } ≤
      calculate_objectivity_score
        { one_sided_score := 0.3, source_diversity_score := 0.1, quantitative_ratio := 0.2 }
        { source_credibility_score := 0.4 } { unsupported := ["a", "b"] }) :=
  ⟨(objectivity_score_monotone
      { one_sided_score := 0.9, quantitative_ratio := 0.2 }
      { source_credibility_score := 0.4 } { unsupported := ["a", "b"] }).1 0.1 0.7 (by norm_num),
   (objectivity_score_monotone
      { one_sided_score := 0.9, source_diversity_score := 0.1, quantitative_ratio := 0.2 }
      {} { unsupported := ["a", "b"] }).2.1 0.4 0.8 (by norm_num),
   (objectivity_score_monotone
      { source_diversity_score := 0.1, quantitative_ratio := 0.2 }
      { source_credibility_score := 0.4 } { unsupported := ["a", "b"] }).2.2 0.3 0.9 (by norm_num)⟩

/-- C2: the router returns REFINE exactly when red-team evaluation and the
feedback loop are both enabled, an evaluation summary is present, its overall
score is below the configured minimum objectivity score, and the
refinement-iteration counter is below the configured maximum; in every other
case (each of the five FINALIZE conditions) it returns FINALIZE. -/
theorem should_refine_report_characterization (rt fl : Bool) (s : AgentState) :
    should_refine_report rt fl s = RouteDecision.refine_report ↔
      (rt = true ∧ fl = true ∧
        ∃ ev, s.red_team_evaluation = some ev ∧
          ev.overall_score < s.min_objectivity_score ∧
          s.refinement_iterations < s.max_refinement_iterations) := by
  unfold should_refine_report
  cases rt with
  | false => simp
  | true =>
    cases fl with
    | false => simp
    | true =>
      cases h : s.red_team_evaluation with
      | none => simp [h]
      | some ev =>
        simp only [h, Bool.true_eq_false, if_false, true_and]
        constructor
        · intro hd
          split_ifs at hd with h1 h2
          · exact ⟨ev, rfl, not_le.mp h1, not_le.mp h2⟩
        · rintro ⟨ev', hev, hlt, hit⟩
          injection hev with hev'
          subst hev'
          rw [if_neg (not_le.mpr hlt), if_neg (not_le.mpr hit)]

/-- A state mid-loop: evaluation present with overall score 0.5, one
refinement done, default thresholds (min 0.75, max 3). -/
def c2SampleState : AgentState :=
  { red_team_evaluation := some (get_evaluation_summary { overall_score := 0.5 })
    refinement_iterations := 1 }

/-- Witness for C2: with both loops enabled, score 0.5 < 0.75 and
iteration 1 < 3, the router continues refining. -/
theorem should_refine_report_characterization_witness :
    should_refine_report true true c2SampleState = RouteDecision.refine_report :=
  (should_refine_report_characterization true true c2SampleState).mpr
    ⟨rfl, rfl, get_evaluation_summary { overall_score := 0.5 }, rfl,
      by norm_num [c2SampleState, get_evaluation_summary],
      by norm_num [c2SampleState]⟩

/-- C3 counterexample: on a response with no parsable JSON, the bias analysis
does **not** return all-0.5 scores — `BiasMetrics()` has score fields 0.0. -/
theorem bias_fallback_not_all_half :
    ¬ ((biasFromResponse none).one_sided_score = 0.5 ∧
       (biasFromResponse none).source_diversity_score = 0.5 ∧
       (biasFromResponse none).quantitative_ratio = 0.5) := by
  intro h
  have h1 := h.1
  norm_num [biasFromResponse] at h1

/-- C3 (amended): on a response with no parsable JSON neither analysis
raises; the bias analysis returns the `BiasMetrics` dataclass defaults
(all scores 0.0, all lists empty) and the source analysis returns
`SourceQualityMetrics` with credibility 0.5, `total_sources` equal to the
number of provided source URLs, zero other counts and no missing
citations. -/
theorem analysis_parse_failure_defaults (srcs : List String) :
    biasFromResponse none =
      { one_sided_score := 0, missing_counter_evidence := [],
        confirmation_bias_indicators := [], source_diversity_score := 0,
        quantitative_ratio := 0 } ∧
    sourcesFromResponse srcs none =
      { total_sources := (srcs.length : ℤ), primary_sources := 0, secondary_sources := 0,
        academic_sources := 0, source_credibility_score := 0.5, missing_citations := [] } :=
  ⟨rfl, rfl⟩

/-- C5: the feedback synthesizer's deterministic rule table — an overall
score below 0.60 yields a critical issue with the below-threshold text; a
non-empty unsupported-claims list yields a high issue attaching at most 5
claims; and a score below 0.60 with one-sidedness above 0.6 and credibility
below 0.6 yields the critical issue plus the alternative-viewpoints and
primary-sources suggestions. -/
theorem feedback_rule_table (score : ObjectivityScore) (report query : String) :
    (score.overall_score < 0.6 →
      ∃ i ∈ (generate_refinement_feedback score report query).priority_issues,
        i.severity = "critical" ∧
        i.issue = "Overall objectivity score is below acceptable threshold") ∧
    (score.unsupported_claims ≠ [] →
      ∃ i ∈ (generate_refinement_feedback score report query).priority_issues,
        i.severity = "high" ∧
        i.issue = toString score.unsupported_claims.length ++ " unsupported claims found" ∧
        i.claims = some (score.unsupported_claims.take 5) ∧
        (score.unsupported_claims.take 5).length ≤ 5) ∧
    (score.overall_score < 0.6 → score.bias_metrics.one_sided_score > 0.6 →
      score.source_quality.source_credibility_score < 0.6 →
      (∃ i ∈ (generate_refinement_feedback score report query).priority_issues,
        i.severity = "critical") ∧
      "Add alternative viewpoints and counter-arguments to balance the report" ∈
        (generate_refinement_feedback score report query).specific_suggestions ∧
      "Prioritize primary sources and authoritative publications over secondary sources" ∈
        (generate_refinement_feedback score report query).specific_suggestions) := by
  refine ⟨?_, ?_, ?_⟩
  · intro h
    refine ⟨⟨"critical", "Overall objectivity score is below acceptable threshold",
      some score.overall_score, some 0.75, none, none, none⟩, ?_, rfl, rfl⟩
    simp [generate_refinement_feedback, h]
  · intro h
    have hl : score.unsupported_claims.length > 0 := List.length_pos.mpr h
    refine ⟨⟨"high", toString score.unsupported_claims.length ++ " unsupported claims found",
      none, none, some (score.unsupported_claims.take 5), none, none⟩, ?_, rfl, rfl, rfl,
      List.length_take_le _ _⟩
    simp [generate_refinement_feedback, hl]
  · intro h1 h2 h3
    refine ⟨⟨⟨"critical", "Overall objectivity score is below acceptable threshold",
      some score.overall_score, some 0.75, none, none, none⟩, ?_, rfl⟩, ?_, ?_⟩
    · simp [generate_refinement_feedback, h1]
    · simp [generate_refinement_feedback, h2]
    · simp [generate_refinement_feedback, h3]

/-- The end-to-end scenario score of the spec: weighted raw 0.24 with two
unsupported claims, overall 0.216. -/
def c5SampleScore : ObjectivityScore :=
  { overall_score := 0.216
    bias_metrics :=
      { one_sided_score := 0.9
        source_diversity_score := 0.3
        quantitative_ratio := 0.2 }
    source_quality := { source_credibility_score := 0.4 }
    unsupported_claims := ["claim one", "claim two"] }

/-- Witness for C5: at the end-to-end sample score, the critical issue, the
unsupported-claims issue, and both required suggestions are all emitted. -/
theorem feedback_rule_table_witness :
    (∃ i ∈ (generate_refinement_feedback c5SampleScore "report" "query").priority_issues,
      i.severity = "critical" ∧
      i.issue = "Overall objectivity score is below acceptable threshold") ∧
    (∃ i ∈ (generate_refinement_feedback c5SampleScore "report" "query").priority_issues,
      i.severity = "high" ∧
      i.issue = toString c5SampleScore.unsupported_claims.length ++ " unsupported claims found" ∧
      i.claims = some (c5SampleScore.unsupported_claims.take 5) ∧
      (c5SampleScore.unsupported_claims.take 5).length ≤ 5) ∧
    "Add alternative viewpoints and counter-arguments to balance the report" ∈
      (generate_refinement_feedback c5SampleScore "report" "query").specific_suggestions ∧
    "Prioritize primary sources and authoritative publications over secondary sources" ∈
      (generate_refinement_feedback c5SampleScore "report" "query").specific_suggestions := by
  have h := feedback_rule_table c5SampleScore "report" "query"
  have h3 := h.2.2 (by norm_num [c5SampleScore]) (by norm_num [c5SampleScore])
    (by norm_num [c5SampleScore])
  exact ⟨h.1 (by norm_num [c5SampleScore]), h.2.1 (by decide),
    h3.2.1, h3.2.2⟩

/-- C6: every element of the parsed `unsupported` and
`missing_counter_evidence` lists is coerced to a string — strings kept as-is,
dicts via their `claim` (resp. `gap`) or `text` key, everything else
stringified; in particular `["plain string", {"claim": "x"}, 42]` coerces to
`["plain string", "x", "42"]`. -/
theorem claim_verification_coercion (l m : List PyVal) :
    (verifyClaimsFromResponse
        (some { unsupported := some l, missing_counter_evidence := some m })).unsupported =
      l.map coerceClaimItem ∧
    (verifyClaimsFromResponse
        (some { unsupported := some l,
                missing_counter_evidence := some m })).missing_counter_evidence =
      m.map coerceGapItem ∧
    (∀ s : String, coerceClaimItem (.pstr s) = s ∧ coerceGapItem (.pstr s) = s) ∧
    (∀ fs v, List.lookup "claim" fs = some v → coerceClaimItem (.pdict fs) = pyStr v) ∧
    (∀ fs v, List.lookup "claim" fs = none → List.lookup "text" fs = some v →
      coerceClaimItem (.pdict fs) = pyStr v) ∧
    (∀ fs v, List.lookup "gap" fs = some v → coerceGapItem (.pdict fs) = pyStr v) ∧
    (∀ fs v, List.lookup "gap" fs = none → List.lookup "text" fs = some v →
      coerceGapItem (.pdict fs) = pyStr v) ∧
    (∀ n : ℤ, coerceClaimItem (.pint n) = toString n ∧ coerceGapItem (.pint n) = toString n) ∧
    (verifyClaimsFromResponse (some
        { unsupported := some [.pstr "plain string", .pdict [("claim", .pstr "x")], .pint 42] })).unsupported =
      ["plain string", "x", "42"] := by
  refine ⟨rfl, rfl, fun s => ⟨rfl, rfl⟩, ?_, ?_, ?_, ?_, fun n => ⟨rfl, rfl⟩, ?_⟩
  · intro fs v h
    simp [coerceClaimItem, h]
  · intro fs v h1 h2
    simp [coerceClaimItem, h1, h2]
  · intro fs v h
    simp [coerceGapItem, h]
  · intro fs v h1 h2
    simp [coerceGapItem, h1, h2]
  · rfl

/-- Witness for C6: the dict-coercion rules at concrete dicts — `claim`
preferred, then `text`, and the `gap` key for the counter-evidence list. -/
theorem claim_verification_coercion_witness :
    coerceClaimItem (.pdict [("claim", .pstr "x"), ("text", .pstr "t")]) = "x" ∧
    coerceClaimItem (.pdict [("text", .pstr "t")]) = "t" ∧
    coerceGapItem (.pdict [("gap", .pstr "g")]) = "g" ∧
    coerceGapItem (.pdict [("text", .pstr "t")]) = "t" := by
  have h := claim_verification_coercion [] []
  exact ⟨h.2.2.2.1 [("claim", .pstr "x"), ("text", .pstr "t")] (.pstr "x") rfl,
    h.2.2.2.2.1 [("text", .pstr "t")] (.pstr "t") rfl rfl,
    h.2.2.2.2.2.1 [("gap", .pstr "g")] (.pstr "g") rfl,
    h.2.2.2.2.2.2.1 [("text", .pstr "t")] (.pstr "t") rfl rfl⟩

/-- C7: whatever exception the red-team evaluation cycle raises (generation
failure or otherwise), the evaluation node returns the empty update; merging
it leaves the whole state — in particular the previously generated
`final_report` — unchanged, so an evaluation failure is never fatal. -/
theorem red_team_eval_failure_skipped (enabled : Bool) (today : String) (s : AgentState)
    (err : String) :
    red_team_evaluation_node enabled today s (.error err) = StateUpdate.empty ∧
    applyUpdate s (red_team_evaluation_node enabled today s (.error err)) = s ∧
    (applyUpdate s (red_team_evaluation_node enabled today s (.error err))).final_report =
      s.final_report := by
  have h : red_team_evaluation_node enabled today s (.error err) = StateUpdate.empty := by
    unfold red_team_evaluation_node
    cases enabled <;> simp [StateUpdate.empty]
  refine ⟨h, ?_, ?_⟩
  · rw [h, applyUpdate_empty]
  · rw [h, applyUpdate_empty]

/-- C10: when the stored red-team feedback is absent or carries an empty
refinement prompt, the refinement node makes no generation call (its result
does not depend on the writer model), leaves the final report unchanged, and
still increments the refinement-iteration counter by exactly one. -/
theorem refine_without_feedback (gen gen' : String → String) (s : AgentState)
    (h : s.red_team_feedback = none ∨
      ∃ f, s.red_team_feedback = some f ∧ f.refinement_prompt = "") :
    refine_report_with_feedback gen s =
      { final_report := some s.final_report
        refinement_iterations := some (s.refinement_iterations + 1) } ∧
    (applyUpdate s (refine_report_with_feedback gen s)).final_report = s.final_report ∧
    (applyUpdate s (refine_report_with_feedback gen s)).refinement_iterations =
      s.refinement_iterations + 1 ∧
    refine_report_with_feedback gen s = refine_report_with_feedback gen' s := by
  have hp : (match s.red_team_feedback with
      | none => ""
      | some f => f.refinement_prompt) = "" := by
    rcases h with h | ⟨f, hf, hp⟩
    · rw [h]
    · rw [hf]; exact hp
  have hu : refine_report_with_feedback gen s =
      { final_report := some s.final_report
        refinement_iterations := some (s.refinement_iterations + 1) } := by
    unfold refine_report_with_feedback
    rw [if_pos hp]
  refine ⟨hu, ?_, ?_, ?_⟩
  · rw [hu]; rfl
  · rw [hu]; rfl
  · rw [hu]
    unfold refine_report_with_feedback
    rw [if_pos hp]

/-- Witness for C10: at a state with no stored feedback, the node returns
the unchanged report and counter 1, for any two writer models. -/
theorem refine_without_feedback_witness :
    refine_report_with_feedback (fun p => p) { final_report := "the report" } =
      { final_report := some "the report", refinement_iterations := some 1 } ∧
    refine_report_with_feedback (fun p => p) { final_report := "the report" } =
      refine_report_with_feedback (fun _ => "other") { final_report := "the report" } := by
  have h := refine_without_feedback (fun p => p) (fun _ => "other")
    { final_report := "the report" } (Or.inl rfl)
  exact ⟨h.1, h.2.2.2⟩

/-- C9: the synthesized refinement prompt always contains the hardcoded
`(Target: ≥75%)` text, and the evaluation node's entire output — the
feedback with its prompt included — is unchanged when the state's configured
`min_objectivity_score` is replaced by any other value: the reported target
does not depend on the configured threshold. -/
theorem refinement_prompt_fixed_target (score : ObjectivityScore) (report query : String)
    (enabled : Bool) (today : String) (s : AgentState) (m : ℚ)
    (inp : Except String EvalInputs) :
    (∃ pre post : String,
      (generate_refinement_feedback score report query).refinement_prompt =
        pre ++ " (Target: ≥75%)" ++ post) ∧
    red_team_evaluation_node enabled today { s with min_objectivity_score := m } inp =
      red_team_evaluation_node enabled today s inp := by
  constructor
  · simp only [generate_refinement_feedback, build_refinement_prompt]
    exact ⟨_, _, rfl⟩
  · rfl

/-- C8: in every reachable state the length of `red_team_feedback_history`
equals `red_team_iteration_count`; a (non-skipped) evaluation step appends
exactly one history entry and sets the counter to its previous value plus
one, and no other node's update touches either field. -/
theorem history_length_invariant :
    (∀ s : AgentState, ReachableState s →
      s.red_team_feedback_history.length = s.red_team_iteration_count) ∧
    (∀ (enabled : Bool) (today : String) (s : AgentState) (inp : Except String EvalInputs),
      red_team_evaluation_node enabled today s inp = StateUpdate.empty ∨
      ((red_team_evaluation_node enabled today s inp).red_team_feedback_history.length = 1 ∧
        (red_team_evaluation_node enabled today s inp).red_team_iteration_count =
          some (s.red_team_iteration_count + 1))) ∧
    (∀ (gen : String → String) (s : AgentState),
      (refine_report_with_feedback gen s).red_team_feedback_history = [] ∧
      (refine_report_with_feedback gen s).red_team_iteration_count = none) ∧
    (∀ text : String,
      (final_report_generation_update text).red_team_feedback_history = [] ∧
      (final_report_generation_update text).red_team_iteration_count = none) ∧
    (∀ b : String,
      (write_research_brief_update b).red_team_feedback_history = [] ∧
      (write_research_brief_update b).red_team_iteration_count = none) ∧
    (∀ b d : String,
      (write_draft_report_update b d).red_team_feedback_history = [] ∧
      (write_draft_report_update b d).red_team_iteration_count = none) ∧
    (∀ msgs sup raw ns : List String,
      (supervisor_update msgs sup raw ns).red_team_feedback_history = [] ∧
      (supervisor_update msgs sup raw ns).red_team_iteration_count = none) := by
  refine ⟨?_, ?_, ?_, fun _ => ⟨rfl, rfl⟩, fun _ => ⟨rfl, rfl⟩,
    fun _ _ => ⟨rfl, rfl⟩, fun _ _ _ _ => ⟨rfl, rfl⟩⟩
  · intro s h
    induction h with
    | init msgs => rfl
    | step hr hstep ih =>
      cases hstep with
      | clarify => exact ih
      | brief b => simpa [applyUpdate, write_research_brief_update] using ih
      | draft b d => simpa [applyUpdate, write_draft_report_update] using ih
      | supervisor msgs sup raw ns => simpa [applyUpdate, supervisor_update] using ih
      | finalGen text => simpa [applyUpdate, final_report_generation_update] using ih
      | evalNode enabled today inp =>
        simp only [red_team_evaluation_node]
        split_ifs with h1 h2
        · simpa [applyUpdate] using ih
        · simpa [applyUpdate] using ih
        · cases inp with
          | error e => simpa [applyUpdate] using ih
          | ok ev =>
            simp only [applyUpdate, List.length_append, Option.getD_some,
              List.length_singleton]
            omega
      | refineNode gen =>
        simp only [refine_report_with_feedback]
        split_ifs with h1
        · simpa [applyUpdate] using ih
        · simpa [applyUpdate] using ih
  · intro enabled today s inp
    simp only [red_team_evaluation_node]
    split_ifs with h1 h2
    · exact Or.inl rfl
    · exact Or.inl rfl
    · cases inp with
      | error e => exact Or.inl rfl
      | ok ev => exact Or.inr ⟨rfl, rfl⟩
  · intro gen s
    simp only [refine_report_with_feedback]
    split_ifs with h1
    · exact ⟨rfl, rfl⟩
    · exact ⟨rfl, rfl⟩

/-- The initial state of a session on user query `"q"`. -/
def c8s0 : AgentState := { messages := ["q"] }

/-- The state after blue-team report generation. -/
def c8s1 : AgentState := applyUpdate c8s0 (final_report_generation_update "the report")

/-- The state after one successful red-team evaluation of that report. -/
def c8s2 : AgentState :=
  applyUpdate c8s1 (red_team_evaluation_node true "2026-10-12" c8s1 (.ok {}))

/-- Witness for C8: the invariant holds along the concrete reachable run
init → report generation → successful evaluation. -/
theorem history_length_invariant_witness :
    c8s2.red_team_feedback_history.length = c8s2.red_team_iteration_count :=
  history_length_invariant.1 c8s2
    (ReachableState.step
      (ReachableState.step (ReachableState.init ["q"])
        (WorkflowStep.finalGen c8s0 "the report"))
      (WorkflowStep.evalNode c8s1 true "2026-10-12" (.ok {})))
